import Mathlib

/-!
Verification of the ngx-inference request-routing extension (BBR + EPP).

This file shallowly embeds, in Lean 4, the data model and operations of the
repository's core: the ext-proc header-extraction rule (`src/grpc.rs`), the
model extractor (`src/model_extractor.rs`), the EPP client read loop
(`src/grpc.rs`), the async result watcher (`src/epp/callbacks.rs`,
`src/epp/context.rs`), and the BBR/EPP policy stages (`src/modules/bbr.rs`,
`src/modules/epp.rs`).  Machine integers are modelled as `Nat` (no wraparound
is reachable in the modelled code paths), bytes as `Nat` values below 256,
and fallible operations as `Option`/`Except`.
-/

namespace NgxInference

/-! ## ASCII case-insensitive comparison

Models Rust's `str::eq_ignore_ascii_case`: equal length and bytewise equal
after ASCII-lowercasing.  Header keys in the modelled code are Unicode
strings compared via this function. -/

/-- ASCII-lowercase a single character (`u8::to_ascii_lowercase` applied
codepoint-wise; non-ASCII characters are unchanged). -/
def asciiLowerChar (c : Char) : Char :=
  if 'A' ≤ c ∧ c ≤ 'Z' then Char.ofNat (c.toNat + 32) else c

/-- `str::eq_ignore_ascii_case`. -/
def eqIgnoreAsciiCase (a b : String) : Bool :=
  a.data.map asciiLowerChar == b.data.map asciiLowerChar

/-! ## UTF-8 decoding

`String::from_utf8_lossy` (replacement of maximal invalid subparts with
U+FFFD) and `std::str::from_utf8` (strict validation), modelled over byte
lists.  The decoder follows the WHATWG incremental algorithm that the Rust
standard library implements: each leading byte determines the length and the
admissible range of each continuation byte; on a failing byte, decoding
resumes at that byte. -/

/-- Is `b` a UTF-8 continuation byte (`0x80 ..= 0xBF`)? -/
def isUtf8Cont (b : Nat) : Bool := 0x80 ≤ b && b ≤ 0xBF

/-- Admissible range of the second byte of a multi-byte sequence, given the
leading byte (per the WHATWG / Rust `core::str::validations` table). -/
def utf8SecondByteOk (b0 b1 : Nat) : Bool :=
  if b0 == 0xE0 then 0xA0 ≤ b1 && b1 ≤ 0xBF
  else if b0 == 0xED then 0x80 ≤ b1 && b1 ≤ 0x9F
  else if b0 == 0xF0 then 0x90 ≤ b1 && b1 ≤ 0xBF
  else if b0 == 0xF4 then 0x80 ≤ b1 && b1 ≤ 0x8F
  else isUtf8Cont b1

/-- The replacement character U+FFFD. -/
def replacementChar : Char := Char.ofNat 0xFFFD

/-- Decode a byte list to characters, replacing each maximal invalid
subpart with U+FFFD (`String::from_utf8_lossy`).  `fuel` only drives the
recursion; `fromUtf8Lossy` supplies enough for any input. -/
def utf8LossyGo : Nat → List Nat → List Char
  | 0, _ => []
  | _ + 1, [] => []
  | fuel + 1, b0 :: rest =>
    if b0 < 0x80 then
      Char.ofNat b0 :: utf8LossyGo fuel rest
    else if 0xC2 ≤ b0 && b0 ≤ 0xDF then
      match rest with
      | [] => [replacementChar]
      | b1 :: rest1 =>
        if isUtf8Cont b1 then
          Char.ofNat ((b0 - 0xC0) * 64 + (b1 - 0x80)) :: utf8LossyGo fuel rest1
        else
          replacementChar :: utf8LossyGo fuel rest
    else if 0xE0 ≤ b0 && b0 ≤ 0xEF then
      match rest with
      | [] => [replacementChar]
      | b1 :: rest1 =>
        if utf8SecondByteOk b0 b1 then
          match rest1 with
          | [] => [replacementChar]
          | b2 :: rest2 =>
            if isUtf8Cont b2 then
              Char.ofNat ((b0 - 0xE0) * 4096 + (b1 - 0x80) * 64 + (b2 - 0x80)) ::
                utf8LossyGo fuel rest2
            else
              replacementChar :: utf8LossyGo fuel rest1
        else
          replacementChar :: utf8LossyGo fuel rest
    else if 0xF0 ≤ b0 && b0 ≤ 0xF4 then
      match rest with
      | [] => [replacementChar]
      | b1 :: rest1 =>
        if utf8SecondByteOk b0 b1 then
          match rest1 with
          | [] => [replacementChar]
          | b2 :: rest2 =>
            if isUtf8Cont b2 then
              match rest2 with
              | [] => [replacementChar]
              | b3 :: rest3 =>
                if isUtf8Cont b3 then
                  Char.ofNat ((b0 - 0xF0) * 262144 + (b1 - 0x80) * 4096 +
                      (b2 - 0x80) * 64 + (b3 - 0x80)) :: utf8LossyGo fuel rest3
                else
                  replacementChar :: utf8LossyGo fuel rest2
            else
              replacementChar :: utf8LossyGo fuel rest1
        else
          replacementChar :: utf8LossyGo fuel rest
    else
      replacementChar :: utf8LossyGo fuel rest

/-- `String::from_utf8_lossy`. -/
def fromUtf8Lossy (bytes : List Nat) : String :=
  ⟨utf8LossyGo (bytes.length + 1) bytes⟩

/-- Strict UTF-8 decoding (`std::str::from_utf8`): `none` on any invalid
byte sequence.  `fuel` only drives the recursion; `utf8DecodeStrict`
supplies enough for any input. -/
def utf8StrictGo : Nat → List Nat → Option (List Char)
  | 0, _ => none
  | _ + 1, [] => some []
  | fuel + 1, b0 :: rest =>
    if b0 < 0x80 then
      (utf8StrictGo fuel rest).map (Char.ofNat b0 :: ·)
    else if 0xC2 ≤ b0 && b0 ≤ 0xDF then
      match rest with
      | [] => none
      | b1 :: rest1 =>
        if isUtf8Cont b1 then
          (utf8StrictGo fuel rest1).map (Char.ofNat ((b0 - 0xC0) * 64 + (b1 - 0x80)) :: ·)
        else none
    else if 0xE0 ≤ b0 && b0 ≤ 0xEF then
      match rest with
      | [] => none
      | b1 :: rest1 =>
        if utf8SecondByteOk b0 b1 then
          match rest1 with
          | [] => none
          | b2 :: rest2 =>
            if isUtf8Cont b2 then
              (utf8StrictGo fuel rest2).map
                (Char.ofNat ((b0 - 0xE0) * 4096 + (b1 - 0x80) * 64 + (b2 - 0x80)) :: ·)
            else none
        else none
    else if 0xF0 ≤ b0 && b0 ≤ 0xF4 then
      match rest with
      | [] => none
      | b1 :: rest1 =>
        if utf8SecondByteOk b0 b1 then
          match rest1 with
          | [] => none
          | b2 :: rest2 =>
            if isUtf8Cont b2 then
              match rest2 with
              | [] => none
              | b3 :: rest3 =>
                if isUtf8Cont b3 then
                  (utf8StrictGo fuel rest3).map
                    (Char.ofNat ((b0 - 0xF0) * 262144 + (b1 - 0x80) * 4096 +
                        (b2 - 0x80) * 64 + (b3 - 0x80)) :: ·)
                else none
            else none
        else none
    else none

/-- `std::str::from_utf8` as an `Option`-returning decoder. -/
def utf8DecodeStrict (bytes : List Nat) : Option (List Char) :=
  utf8StrictGo (bytes.length + 1) bytes

/-- UTF-8 encoding of one code point (standard RFC 3629 encoder). -/
def utf8EncodeCodePoint (n : Nat) : List Nat :=
  if n < 0x80 then [n]
  else if n < 0x800 then [0xC0 + n / 64, 0x80 + n % 64]
  else if n < 0x10000 then
    [0xE0 + n / 4096, 0x80 + (n / 64) % 64, 0x80 + n % 64]
  else
    [0xF0 + n / 262144, 0x80 + (n / 4096) % 64, 0x80 + (n / 64) % 64, 0x80 + n % 64]

/-- The UTF-8 byte list of a Lean string, used to feed string literals to
the byte-level functions. -/
def strBytes (s : String) : List Nat :=
  s.data.flatMap (fun c => utf8EncodeCodePoint c.toNat)

/-! ## ext-proc header mutation data model (`envoy.config.core.v3` /
`envoy.service.ext_proc.v3` messages, as used by `src/grpc.rs`) -/

/-- `envoy.config.core.v3.HeaderValue`: key, textual value, raw byte value. -/
structure HeaderValue where
  key : String
  value : String
  raw_value : List Nat
  deriving Repr, DecidableEq

/-- `envoy.config.core.v3.HeaderValueOption` (only the `header` field is
read by the modelled code). -/
structure HeaderValueOption where
  header : Option HeaderValue
  deriving Repr, DecidableEq

/-- `envoy.service.ext_proc.v3.HeaderMutation`: ordered set-list plus
remove-list. -/
structure HeaderMutation where
  set_headers : List HeaderValueOption
  remove_headers : List String
  deriving Repr, DecidableEq

/-- `extract_header_from_mutation` / `extract_header_from_mutation_async`
(`src/grpc.rs:100-168` and `399-416`; both have identical extraction logic,
the former only adds debug logging): scan the set-list in order; for an
entry whose key matches the target ASCII-case-insensitively, return its
textual value if non-empty, else its raw value UTF-8-lossy-decoded if
non-empty, else keep scanning. -/
def extract_header_from_mutation (mutation : HeaderMutation)
    (targetKeyLower : String) : Option String :=
  go mutation.set_headers
where
  /-- The `for hvo in &mutation.set_headers` loop with its early returns. -/
  go : List HeaderValueOption → Option String
  | [] => none
  | hvo :: rest =>
    match hvo.header with
    | some hdr =>
      if eqIgnoreAsciiCase hdr.key targetKeyLower then
        if hdr.value ≠ "" then some hdr.value
        else if hdr.raw_value ≠ [] then some (fromUtf8Lossy hdr.raw_value)
        else go rest
      else go rest
    | none => go rest

/-- Spec-side value of a single set-entry for the target key, written from
the spec's words (§4.3 header extraction rule): a matching key yields the
non-empty textual value, else the non-empty raw value lossily decoded, else
nothing. -/
def specEntryValue (targetKey : String) (hvo : HeaderValueOption) : Option String :=
  match hvo.header with
  | none => none
  | some hdr =>
    if eqIgnoreAsciiCase hdr.key targetKey then
      if hdr.value ≠ "" then some hdr.value
      else if hdr.raw_value ≠ [] then some (fromUtf8Lossy hdr.raw_value)
      else none
    else none

/-- Spec-side extraction: the first entry (in list order) yielding a value. -/
def specFirstMatch (mutation : HeaderMutation) (targetKey : String) : Option String :=
  mutation.set_headers.findSome? (specEntryValue targetKey)




/-! ## JSON model (`serde_json::Value` as used by `src/model_extractor.rs`)

A JSON value; numbers keep their raw token (the model extractor never reads
a numeric value, only its type).  The parser below follows `serde_json`'s
strict grammar: RFC 8259 values, `\uXXXX` escapes with mandatory surrogate
pairing, no trailing characters, rejection of unescaped control characters,
of leading zeros, and of incomplete fraction/exponent parts.  Duplicate
object keys overwrite (the `Map::insert` behaviour of `serde_json`). -/

inductive Json where
  | null
  | bool (b : Bool)
  | num (raw : String)
  | str (s : String)
  | arr (items : List Json)
  | obj (fields : List (String × Json))

/-- The `{` character, written via its code point. -/
def braceOpen : Char := Char.ofNat 123

/-- The `}` character, written via its code point. -/
def braceClose : Char := Char.ofNat 125

/-- JSON insignificant whitespace (space, tab, line feed, carriage return). -/
def isJsonWs (c : Char) : Bool :=
  c == ' ' || c == '\t' || c == '\n' || c == '\r'

/-- Drop leading JSON whitespace. -/
def skipWs : List Char → List Char
  | [] => []
  | c :: rest => if isJsonWs c then skipWs rest else c :: rest

/-- Value of a hexadecimal digit. -/
def hexDigitVal (c : Char) : Option Nat :=
  if '0' ≤ c ∧ c ≤ '9' then some (c.toNat - '0'.toNat)
  else if 'a' ≤ c ∧ c ≤ 'f' then some (c.toNat - 'a'.toNat + 10)
  else if 'A' ≤ c ∧ c ≤ 'F' then some (c.toNat - 'A'.toNat + 10)
  else none

/-- Parse exactly four hex digits. -/
def parseHex4 : List Char → Option (Nat × List Char)
  | a :: b :: c :: d :: rest => do
    let va ← hexDigitVal a
    let vb ← hexDigitVal b
    let vc ← hexDigitVal c
    let vd ← hexDigitVal d
    pure (va * 4096 + vb * 256 + vc * 16 + vd, rest)
  | _ => none

/-- Parse the body of a JSON string after the opening quote, resolving
escapes; errors on unescaped control characters, unknown escapes and
unpaired surrogates (as `serde_json` does). -/
def parseStringChars : Nat → List Char → Option (List Char × List Char)
  | 0, _ => none
  | _, [] => none
  | fuel + 1, c :: rest =>
    if c = '"' then some ([], rest)
    else if c = '\\' then
      match rest with
      | [] => none
      | e :: rest1 =>
        let simpleEsc : Option Char :=
          if e = '"' then some '"'
          else if e = '\\' then some '\\'
          else if e = '/' then some '/'
          else if e = 'b' then some (Char.ofNat 8)
          else if e = 'f' then some (Char.ofNat 12)
          else if e = 'n' then some '\n'
          else if e = 'r' then some '\r'
          else if e = 't' then some '\t'
          else none
        match simpleEsc with
        | some ch => (parseStringChars fuel rest1).map (fun p => (ch :: p.1, p.2))
        | none =>
          if e = 'u' then
            match parseHex4 rest1 with
            | none => none
            | some (n, rest2) =>
              if 0xD800 ≤ n ∧ n ≤ 0xDBFF then
                match rest2 with
                | '\\' :: 'u' :: rest3 =>
                  match parseHex4 rest3 with
                  | none => none
                  | some (m, rest4) =>
                    if 0xDC00 ≤ m ∧ m ≤ 0xDFFF then
                      let cp := 0x10000 + (n - 0xD800) * 1024 + (m - 0xDC00)
                      (parseStringChars fuel rest4).map
                        (fun p => (Char.ofNat cp :: p.1, p.2))
                    else none
                | _ => none
              else if 0xDC00 ≤ n ∧ n ≤ 0xDFFF then none
              else
                (parseStringChars fuel rest2).map (fun p => (Char.ofNat n :: p.1, p.2))
          else none
    else if c.toNat < 0x20 then none
    else (parseStringChars fuel rest).map (fun p => (c :: p.1, p.2))

/-- Take a maximal run of decimal digits. -/
def takeDigits : List Char → (List Char × List Char)
  | [] => ([], [])
  | c :: rest =>
    if c.isDigit then
      let (ds, r) := takeDigits rest
      (c :: ds, r)
    else ([], c :: rest)

/-- Parse the integer part of a JSON number (`0` or a nonzero digit followed
by digits; a leading zero followed by a digit is rejected). -/
def parseIntPart : List Char → Option (List Char × List Char)
  | [] => none
  | c :: rest =>
    if c = '0' then
      match rest with
      | d :: _ =>
        if d.isDigit then none else some (['0'], rest)
      | [] => some (['0'], [])
    else if c.isDigit then
      let (ds, r) := takeDigits rest
      some (c :: ds, r)
    else none

/-- Parse an optional fraction part (`.` requires at least one digit). -/
def parseFracPart : List Char → Option (List Char × List Char)
  | '.' :: rest =>
    match takeDigits rest with
    | ([], _) => none
    | (ds, r) => some ('.' :: ds, r)
  | l => some ([], l)

/-- Parse an optional exponent part (`e`/`E`, optional sign, at least one
digit). -/
def parseExpPart : List Char → Option (List Char × List Char)
  | c :: rest =>
    if c = 'e' ∨ c = 'E' then
      let (sgn, rest1) :=
        match rest with
        | s :: t => if s = '+' ∨ s = '-' then ([s], t) else (([] : List Char), s :: t)
        | [] => ([], [])
      match takeDigits rest1 with
      | ([], _) => none
      | (ds, r) => some (c :: (sgn ++ ds), r)
    else some ([], c :: rest)
  | [] => some ([], [])

/-- Parse a JSON number starting at a `-` or a digit; returns its raw token. -/
def parseNumber (l : List Char) : Option (String × List Char) := do
  let (neg, l1) :=
    match l with
    | '-' :: t => (['-'], t)
    | _ => (([] : List Char), l)
  let (ip, l2) ← parseIntPart l1
  let (fp, l3) ← parseFracPart l2
  let (ep, l4) ← parseExpPart l3
  pure (⟨neg ++ ip ++ fp ++ ep⟩, l4)

/-- Insert a field into an object, overwriting an existing key
(`serde_json`'s map insert). -/
def insertField : List (String × Json) → String → Json → List (String × Json)
  | [], k, v => [(k, v)]
  | (k', v') :: rest, k, v =>
    if k' = k then (k', v) :: rest else (k', v') :: insertField rest k v

/-- Check that `pre` is the next run of characters and drop it. -/
def expectLit : List Char → List Char → Option (List Char)
  | [], l => some l
  | p :: ps, c :: rest => if c = p then expectLit ps rest else none
  | _ :: _, [] => none

/-- Parser worker state: one JSON value, the remaining members of an
object, or the remaining elements of an array. -/
inductive ParseMode where
  | value (l : List Char)
  | objMembers (l : List Char) (acc : List (String × Json))
  | arrElems (l : List Char) (acc : List Json)

/-- Parse one JSON value / object tail / array tail, following
`serde_json::Deserializer::parse_value`.  `fuel` bounds nesting plus
element count; `jsonParse` supplies enough for any input. -/
def parseCore : Nat → ParseMode → Option (Json × List Char)
  | 0, _ => none
  | fuel + 1, ParseMode.value l =>
    match skipWs l with
    | [] => none
    | c :: rest =>
      if c = 'n' then (expectLit ['u', 'l', 'l'] rest).map (Json.null, ·)
      else if c = 't' then (expectLit ['r', 'u', 'e'] rest).map (Json.bool true, ·)
      else if c = 'f' then (expectLit ['a', 'l', 's', 'e'] rest).map (Json.bool false, ·)
      else if c = '"' then
        (parseStringChars (rest.length + 1) rest).map (fun p => (Json.str ⟨p.1⟩, p.2))
      else if c = '-' ∨ c.isDigit then
        (parseNumber (c :: rest)).map (fun p => (Json.num p.1, p.2))
      else if c = braceOpen then
        match skipWs rest with
        | c' :: rest' =>
          if c' = braceClose then some (Json.obj [], rest')
          else parseCore fuel (ParseMode.objMembers (c' :: rest') [])
        | [] => none
      else if c = '[' then
        match skipWs rest with
        | c' :: rest' =>
          if c' = ']' then some (Json.arr [], rest')
          else parseCore fuel (ParseMode.arrElems (c' :: rest') [])
        | [] => none
      else none
  | fuel + 1, ParseMode.objMembers l acc =>
    match skipWs l with
    | '"' :: rest =>
      match parseStringChars (rest.length + 1) rest with
      | none => none
      | some (key, rest1) =>
        match skipWs rest1 with
        | ':' :: rest2 =>
          match parseCore fuel (ParseMode.value rest2) with
          | none => none
          | some (v, rest3) =>
            let acc' := insertField acc ⟨key⟩ v
            match skipWs rest3 with
            | ',' :: rest4 => parseCore fuel (ParseMode.objMembers rest4 acc')
            | c :: rest4 =>
              if c = braceClose then some (Json.obj acc', rest4) else none
            | [] => none
        | _ => none
    | _ => none
  | fuel + 1, ParseMode.arrElems l acc =>
    match parseCore fuel (ParseMode.value l) with
    | none => none
    | some (v, rest) =>
      match skipWs rest with
      | ',' :: rest1 => parseCore fuel (ParseMode.arrElems rest1 (acc ++ [v]))
      | ']' :: rest1 => some (Json.arr (acc ++ [v]), rest1)
      | _ => none

/-- `serde_json::from_str::<Value>`: parse one value and require only
whitespace to follow. -/
def jsonParse (s : String) : Option Json :=
  match parseCore (2 * s.data.length + 2) (ParseMode.value s.data) with
  | some (v, rest) => if skipWs rest = [] then some v else none
  | none => none

/-- `serde_json::Value::get` with a string index: object field lookup,
`none` on every other value kind. -/
def jsonGet (j : Json) (key : String) : Option Json :=
  match j with
  | Json.obj fields => fields.lookup key
  | _ => none

/-- `serde_json::Value::as_str`. -/
def jsonAsStr (j : Json) : Option String :=
  match j with
  | Json.str s => some s
  | _ => none

/-- `extract_model_from_body` (`src/model_extractor.rs:7-18`): strict UTF-8
decode, `serde_json` parse, then `.get("model").and_then(as_str)`
(`.map(to_string)` is the identity here). -/
def extract_model_from_body (body : List Nat) : Option String :=
  match utf8DecodeStrict body with
  | some chars =>
    match jsonParse ⟨chars⟩ with
    | some json => ((jsonGet json "model").bind jsonAsStr).map (fun s => s)
    | none => none
  | none => none

/-! ## ext-proc response messages (`ProcessingResponse` as read by
`parse_response_for_header` / `parse_response_for_header_async`) -/

/-- `envoy.service.ext_proc.v3.CommonResponse` (only `header_mutation` is
read by the extraction path). -/
structure CommonResponse where
  header_mutation : Option HeaderMutation
  deriving Repr, DecidableEq

/-- `HeadersResponse` / `BodyResponse`: the common `response` wrapper
(both proto messages carry exactly one `CommonResponse response` field). -/
structure WrappedResponse where
  response : Option CommonResponse
  deriving Repr, DecidableEq

/-- `TrailersResponse`: carries its `header_mutation` directly. -/
structure TrailersResponse where
  header_mutation : Option HeaderMutation
  deriving Repr, DecidableEq

/-- `ImmediateResponse` (only the `headers` mutation is read). -/
structure ImmediateResponse where
  headers : Option HeaderMutation
  deriving Repr, DecidableEq

/-- The `oneof response` variants of `ProcessingResponse`. -/
inductive ResponseVariant where
  | requestHeaders (h : WrappedResponse)
  | responseHeaders (h : WrappedResponse)
  | requestBody (b : WrappedResponse)
  | responseBody (b : WrappedResponse)
  | requestTrailers (t : TrailersResponse)
  | responseTrailers (t : TrailersResponse)
  | immediateResponse (i : ImmediateResponse)
  deriving Repr, DecidableEq

/-- `envoy.service.ext_proc.v3.ProcessingResponse`. -/
structure ProcessingResponse where
  response : Option ResponseVariant
  deriving Repr, DecidableEq

/-- `parse_response_for_header` / `parse_response_for_header_async`
(`src/grpc.rs:170-341` and `343-397`; identical modulo debug logging):
locate the optional header mutation of each variant and extract. -/
def parse_response_for_header (resp : ProcessingResponse)
    (targetKeyLower : String) : Option String :=
  match resp.response with
  | some (ResponseVariant.requestHeaders h) => fromWrapped h targetKeyLower
  | some (ResponseVariant.responseHeaders h) => fromWrapped h targetKeyLower
  | some (ResponseVariant.requestBody b) => fromWrapped b targetKeyLower
  | some (ResponseVariant.responseBody b) => fromWrapped b targetKeyLower
  | some (ResponseVariant.requestTrailers t) => fromTrailers t targetKeyLower
  | some (ResponseVariant.responseTrailers t) => fromTrailers t targetKeyLower
  | some (ResponseVariant.immediateResponse i) =>
    match i.headers with
    | some hm => extract_header_from_mutation hm targetKeyLower
    | none => none
  | none => none
where
  /-- The `response.header_mutation` path shared by the four wrapped
  variants. -/
  fromWrapped (w : WrappedResponse) (k : String) : Option String :=
    match w.response with
    | some common =>
      match common.header_mutation with
      | some hm => extract_header_from_mutation hm k
      | none => none
    | none => none
  /-- The direct `header_mutation` path of the two trailer variants. -/
  fromTrailers (t : TrailersResponse) (k : String) : Option String :=
    match t.header_mutation with
    | some hm => extract_header_from_mutation hm k
    | none => none

/-! ## EPP client response-reading phase (`epp_headers_blocking` /
`epp_headers_blocking_internal`, `src/grpc.rs:557-605` and `984-1029`)

The response stream is modelled as the list of successive outcomes of
`inbound.message()`, each paired with the time (ms) that read would take.
`tokio::time::timeout` is modelled as firing iff the read takes strictly
longer than the budget (tokio polls the inner future before the timer). -/

/-- One outcome of `inbound.message()`. -/
inductive RecvItem where
  | msg (resp : ProcessingResponse)
  | eos
  | recvErr (e : String)
  deriving Repr, DecidableEq

/-- The `Result<Option<String>, String>` of the EPP client call after the
connection phase. -/
inductive EppCallResult where
  | ok (v : Option String)
  | err (e : String)
  deriving Repr, DecidableEq

/-- The unbounded follow-up read loop (`src/grpc.rs:587-603`): subsequent
responses are read with **no** time bound, so the carried delays are
ignored. -/
def epp_read_rest (target : String) : List (Nat × RecvItem) → EppCallResult
  | [] => EppCallResult.ok none
  | (_, item) :: rest =>
    match item with
    | RecvItem.msg resp =>
      match parse_response_for_header resp target with
      | some v => EppCallResult.ok (some v)
      | none => epp_read_rest target rest
    | RecvItem.eos => EppCallResult.ok none
    | RecvItem.recvErr e => EppCallResult.err ("stream recv error: " ++ e)

/-- The full response-reading phase (`src/grpc.rs:557-605`): the first read
is wrapped in `tokio::time::timeout` when `timeout_ms != 0`, and an elapsed
timeout returns `Ok(None)` (line 567); every later read goes through the
unbounded loop. -/
def epp_read_responses (timeout_ms : Nat) (target : String)
    (stream : List (Nat × RecvItem)) : EppCallResult :=
  match stream with
  | [] => EppCallResult.ok none
  | (delay, item) :: rest =>
    if timeout_ms ≠ 0 ∧ timeout_ms < delay then EppCallResult.ok none
    else
      match item with
      | RecvItem.msg resp =>
        match parse_response_for_header resp target with
        | some v => EppCallResult.ok (some v)
        | none => epp_read_rest target rest
      | RecvItem.eos => EppCallResult.ok none
      | RecvItem.recvErr e => EppCallResult.err ("stream recv error: " ++ e)

/-- A response carrying no content at all (`resp.response == None`). -/
def emptyResponse : ProcessingResponse := ⟨none⟩

/-- A `RequestHeaders` response whose mutation sets
`x-inference-upstream: 10.0.0.5:8000`. -/
def upstreamResponse : ProcessingResponse :=
  ⟨some (ResponseVariant.requestHeaders
    ⟨some ⟨some ⟨[⟨some ⟨"x-inference-upstream", "10.0.0.5:8000", []⟩⟩], []⟩⟩⟩)⟩

/-! ## Async bridge: worker task and result watcher
(`src/epp/async_processor.rs`, `src/epp/context.rs`, `src/epp/callbacks.rs`) -/

/-- `process_epp_async` (`src/epp/async_processor.rs:85-122`): collapse the
client result into the `Result<String, String>` sent over the oneshot
channel; `Ok(None)` becomes an error string. -/
def process_epp_async (r : EppCallResult) : Except String String :=
  match r with
  | EppCallResult.ok (some upstream) => Except.ok upstream
  | EppCallResult.ok none => Except.error "EPP returned no upstream"
  | EppCallResult.err e => Except.error ("EPP error: " ++ e)

/-- `ResultWatcher::is_timed_out` (`src/epp/context.rs:88-91`):
`now.saturating_sub(start) > timeout_ms`. -/
def is_timed_out (start_time_ms now_ms timeout_ms : Nat) : Bool :=
  now_ms - start_time_ms > timeout_ms

/-- State of the oneshot channel as seen by `try_recv`. -/
inductive ChanState where
  | empty
  | ready (res : Except String String)
  | closed
  deriving Repr

/-- Is the channel still empty? -/
def chanIsEmpty : ChanState → Bool
  | ChanState.empty => true
  | _ => false

/-- What one firing of the EPP result timer observes. -/
structure WatcherInput where
  requestNull : Bool
  connNull : Bool
  countZero : Bool
  timedOut : Bool
  chan : ChanState
  deriving Repr

/-- The owning request is gone (any of the three liveness checks fails). -/
def requestGone (inp : WatcherInput) : Bool :=
  inp.requestNull || inp.connNull || inp.countZero

/-- How one fire of `check_epp_result` acts on a live watcher. -/
inductive FireOutcome where
  | teardown
  | timeoutFail
  | deliver (res : Except String String)
  | closedFail
  | reschedule
  deriving Repr

/-- `check_epp_result` (`src/epp/callbacks.rs:533-678`) on a live watcher:
liveness checks first (null request, null connection, zero refcount → tear
down), then the timeout check, then `try_recv` (ready → deliver, empty →
reschedule the 1 ms timer, closed → channel failure). -/
def check_epp_result (inp : WatcherInput) : FireOutcome :=
  if inp.requestNull then FireOutcome.teardown
  else if inp.connNull then FireOutcome.teardown
  else if inp.countZero then FireOutcome.teardown
  else if inp.timedOut then FireOutcome.timeoutFail
  else
    match inp.chan with
    | ChanState.ready res => FireOutcome.deliver res
    | ChanState.empty => FireOutcome.reschedule
    | ChanState.closed => FireOutcome.closedFail

/-- One timer fire on the timer event.  The Bool is the event's data
pointer state: `false` models a null/freed watcher, on which the callback
returns immediately (`callbacks.rs:538-541`).  Every outcome except
`reschedule` deletes the timer or clears the handler and frees the watcher
(`callbacks.rs:591-604`, `622-634`, `663-669`), so the watcher is dead for
all later fires. -/
def fireStep (inp : WatcherInput) : Bool → Bool × Option FireOutcome
  | false => (false, none)
  | true =>
    match check_epp_result inp with
    | FireOutcome.reschedule => (true, none)
    | o => (false, some o)

/-- Run a sequence of timer fires, collecting the resolutions performed.
The input sequence is arbitrary, so it covers any interleaving of request
teardown, timeout expiry and channel activity — including a worker result
that becomes ready only after the timeout already resolved the call (the
worker's `sender.send` outcome is ignored, `src/epp/async_processor.rs:55`,
so a result never reaches the request except through a `deliver` fire). -/
def runFires : List WatcherInput → Bool → List FireOutcome
  | [], _ => []
  | inp :: rest, live =>
    match fireStep inp live with
    | (live2, none) => runFires rest live2
    | (live2, some o) => o :: runFires rest live2

/-- An input that resolves a pending watcher (anything but
alive-not-timed-out-empty-channel). -/
def resolvingInput (inp : WatcherInput) : Bool :=
  requestGone inp || inp.timedOut || !(chanIsEmpty inp.chan)

/-! ## Header map and the EPP failure/resolution path -/

/-- Request headers: an ordered key/value list (duplicates allowed). -/
abbrev Headers := List (String × String)

/-- `get_header_in` (`src/modules/bbr.rs:23-37`): first entry whose name
matches case-insensitively (header values here are all UTF-8). -/
def get_header_in (headers : Headers) (key : String) : Option String :=
  match headers with
  | [] => none
  | (name, value) :: rest =>
    if eqIgnoreAsciiCase name key then some value else get_header_in rest key

/-- `Request::add_header_in` / `set_upstream_header`
(`src/epp/callbacks.rs:770-826`): push a new entry onto the incoming header
list. -/
def set_upstream_header (headers : Headers) (name value : String) : Headers :=
  headers ++ [(name, value)]

/-- The `AsyncEppContext` fields read by the failure/resolution handlers
(`src/epp/context.rs:13-37`). -/
structure AsyncEppContext where
  upstream_header : String
  timeout_ms : Nat
  failure_mode_allow : Bool
  default_upstream : Option String
  deriving Repr, DecidableEq

/-- How the async path resolves the suspended request. -/
inductive EppResolution where
  | resume (headers : Headers)
  | finalize (status : Nat) (headers : Headers)
  deriving Repr, DecidableEq

/-- `handle_epp_failure` (`src/epp/callbacks.rs:723-763`): fail-open sets
the configured default (if any) and resumes phases; fail-closed finalizes
with the given status and applies no default. -/
def handle_epp_failure (ctx : AsyncEppContext) (headers : Headers)
    (status_code : Nat) : EppResolution :=
  if ctx.failure_mode_allow then
    match ctx.default_upstream with
    | some default =>
      EppResolution.resume (set_upstream_header headers ctx.upstream_header default)
    | none => EppResolution.resume headers
  else EppResolution.finalize status_code headers

/-- `process_epp_result` (`src/epp/callbacks.rs:685-716`): a delivered
`Ok` sets the upstream header and resumes; a delivered `Err` is handled as
a 502 failure. -/
def process_epp_result (ctx : AsyncEppContext) (headers : Headers)
    (result : Except String String) : EppResolution :=
  match result with
  | Except.ok upstream =>
    EppResolution.resume (set_upstream_header headers ctx.upstream_header upstream)
  | Except.error _ => handle_epp_failure ctx headers 502

/-- The request-side action of one resolving timer fire
(`src/epp/callbacks.rs:533-678`): timeout → failure with 504
(`NGX_HTTP_GATEWAY_TIME_OUT`), closed channel → failure with 502
(`NGX_HTTP_BAD_GATEWAY`), delivered result → `process_epp_result`; teardown
and reschedule touch no request state. -/
def resolve_fire (ctx : AsyncEppContext) (headers : Headers)
    (inp : WatcherInput) : Option EppResolution :=
  match check_epp_result inp with
  | FireOutcome.timeoutFail => some (handle_epp_failure ctx headers 504)
  | FireOutcome.closedFail => some (handle_epp_failure ctx headers 502)
  | FireOutcome.deliver res => some (process_epp_result ctx headers res)
  | FireOutcome.teardown => none
  | FireOutcome.reschedule => none

/-! ## BBR stage (`src/modules/bbr.rs`) -/

/-- The `ModuleConfig` fields read by the BBR stage. -/
structure BbrConfig where
  bbr_enable : Bool
  bbr_header_name : String
  bbr_default_model : String
  bbr_max_body_size : Nat
  bbr_failure_mode_allow : Bool
  deriving Repr, DecidableEq

/-- The target header name with its default
(`src/modules/bbr.rs:56-60`). -/
def bbrHeaderName (conf : BbrConfig) : String :=
  if conf.bbr_header_name = "" then "X-Gateway-Model-Name" else conf.bbr_header_name

/-- One `ngx_chain_t` link of the buffered request body: the bytes of its
memory range (`pos..last`) and of its file-backed range
(`file_pos..file_last`); either may be empty.  File reads are modelled as
succeeding with the addressed content. -/
structure ChainLink where
  mem : List Nat
  file : List Nat
  deriving Repr, DecidableEq

/-- Total number of body bytes addressed by a chain. -/
def chainBytes (chain : List ChainLink) : Nat :=
  (chain.map (fun l => l.mem.length + l.file.length)).sum

/-- Continuation state of the per-segment limit check. -/
inductive LinkStep where
  | next (body : List Nat) (total : Nat)
  | stop (result : Except Unit (List Nat))
  deriving Repr

/-- The per-segment body-limit check of `read_request_body`
(`src/modules/bbr.rs:274-320` for memory segments, `322-375` for file
segments; both sides run this identical logic): a segment that would push
the total over `bbr_max_body_size` either fails (fail-closed, after setting
the 413 status) or is truncated to the remaining budget and ends
collection (fail-open `break`); otherwise it is appended whole. -/
def bbrAppendSegment (conf : BbrConfig) (seg body : List Nat) (total : Nat) : LinkStep :=
  if seg.length > 0 then
    if total + seg.length > conf.bbr_max_body_size then
      if !conf.bbr_failure_mode_allow then LinkStep.stop (Except.error ())
      else LinkStep.stop (Except.ok (body ++ seg.take (conf.bbr_max_body_size - total)))
    else LinkStep.next (body ++ seg) (total + seg.length)
  else LinkStep.next body total

/-- The buffer-chain walk of `read_request_body`
(`src/modules/bbr.rs:266-424`): memory range then file range of each link. -/
def read_request_body_go (conf : BbrConfig) :
    List ChainLink → List Nat → Nat → Except Unit (List Nat)
  | [], body, _ => Except.ok body
  | link :: rest, body, total =>
    match bbrAppendSegment conf link.mem body total with
    | LinkStep.stop r => r
    | LinkStep.next body1 total1 =>
      match bbrAppendSegment conf link.file body1 total1 with
      | LinkStep.stop r => r
      | LinkStep.next body2 total2 => read_request_body_go conf rest body2 total2

/-- `read_request_body` (`src/modules/bbr.rs:239-427`): collect the body
from the chain; the only `Err` return is the fail-closed size-limit path,
which first sets the 413 response status. -/
def read_request_body (conf : BbrConfig) (chain : List ChainLink) :
    Except Unit (List Nat) :=
  read_request_body_go conf chain [] 0

/-- Outcome of the BBR body handler on one request. -/
inductive BbrOutcome where
  | proceed (headers : Headers)
  | reject (status : Nat)
  deriving Repr, DecidableEq

/-- `bbr_body_read_handler` (`src/modules/bbr.rs:118-236`), from the point
where the body is fully read: skip when the target header exists; on a
collection error, continue in fail-open mode and reject with the 413 set by
`read_request_body` in fail-closed mode; on success with an empty body,
continue untouched; otherwise set the target header to the extracted model
or the configured default, then resume phases. -/
def bbr_body_read_handler (conf : BbrConfig) (headers : Headers)
    (chain : List ChainLink) : BbrOutcome :=
  let header_name := bbrHeaderName conf
  if (get_header_in headers header_name).isSome then BbrOutcome.proceed headers
  else
    match read_request_body conf chain with
    | Except.error _ =>
      if conf.bbr_failure_mode_allow then BbrOutcome.proceed headers
      else BbrOutcome.reject 413
    | Except.ok body =>
      if body.isEmpty then BbrOutcome.proceed headers
      else
        match extract_model_from_body body with
        | some model_name => BbrOutcome.proceed (headers ++ [(header_name, model_name)])
        | none => BbrOutcome.proceed (headers ++ [(header_name, conf.bbr_default_model)])

/-- Action chosen by `BbrProcessor::process_request`
(`src/modules/bbr.rs:45-74`). -/
inductive BbrAction where
  | declined
  | readBody
  deriving Repr, DecidableEq

/-- `BbrProcessor::process_request` (`src/modules/bbr.rs:45-74`): decline
when disabled or when the target header is already present (no body read,
no mutation); otherwise start reading the body. -/
def bbr_process_request (conf : BbrConfig) (headers : Headers) : BbrAction :=
  if !conf.bbr_enable then BbrAction.declined
  else if (get_header_in headers (bbrHeaderName conf)).isSome then BbrAction.declined
  else BbrAction.readBody

/-! ## EPP blocking stage (`src/modules/epp.rs`) -/

/-- The `ModuleConfig` fields read by the blocking EPP stage. -/
structure EppConfig where
  epp_enable : Bool
  epp_endpoint : Option String
  epp_header_name : String
  epp_failure_mode_allow : Bool
  default_upstream : Option String
  deriving Repr, DecidableEq

/-- The upstream header name with its default
(`src/modules/epp.rs:148-152`). -/
def eppHeaderName (conf : EppConfig) : String :=
  if conf.epp_header_name = "" then "X-Inference-Upstream" else conf.epp_header_name

/-- `set_default_upstream` (`src/modules/epp.rs:47-73`): append the
configured default as the upstream header, only when one is configured and
the header is still absent. -/
def set_default_upstream (conf : EppConfig) (headers : Headers)
    (upstream_header : String) : Headers :=
  match conf.default_upstream with
  | some default =>
    if (get_header_in headers upstream_header).isNone then
      headers ++ [(upstream_header, default)]
    else headers
  | none => headers

/-- Result of `pick_upstream_blocking`: its `Result`, the request headers
afterwards, and whether `epp_headers_blocking` was invoked. -/
structure PickResult where
  result : Except String Unit
  headers : Headers
  grpcCalled : Bool
  deriving Repr

/-- `EppProcessor::pick_upstream_blocking` (`src/modules/epp.rs:130-241`),
with the gRPC call's result supplied as an oracle: skip when no endpoint is
configured or the upstream header is already present; otherwise call the
client and apply its value, the fail-open default, or fail. -/
def pick_upstream_blocking (conf : EppConfig) (headers : Headers)
    (grpc : EppCallResult) : PickResult :=
  match conf.epp_endpoint with
  | none => ⟨Except.ok (), headers, false⟩
  | some e =>
    if e = "" then ⟨Except.ok (), headers, false⟩
    else
      let upstream_header := eppHeaderName conf
      if (get_header_in headers upstream_header).isSome then
        ⟨Except.ok (), headers, false⟩
      else
        match grpc with
        | EppCallResult.ok (some val) =>
          ⟨Except.ok (), headers ++ [(upstream_header, val)], true⟩
        | EppCallResult.ok none =>
          if conf.epp_failure_mode_allow then
            ⟨Except.ok (), set_default_upstream conf headers upstream_header, true⟩
          else ⟨Except.error "EPP returned no upstream in fail-closed mode", headers, true⟩
        | EppCallResult.err _ => ⟨Except.error "epp grpc error", headers, true⟩

/-- Outcome of `EppProcessor::process_request`: decline (continue the
phase chain) or `NGX_ERROR` (fail-closed rejection). -/
inductive EppStageOutcome where
  | declined (headers : Headers)
  | errorStatus (headers : Headers)
  deriving Repr, DecidableEq

/-- `EppProcessor::process_request` (`src/modules/epp.rs:81-127`); also
returns whether the gRPC client was invoked. -/
def epp_process_request (conf : EppConfig) (headers : Headers)
    (grpc : EppCallResult) : EppStageOutcome × Bool :=
  if !conf.epp_enable then (EppStageOutcome.declined headers, false)
  else
    let pr := pick_upstream_blocking conf headers grpc
    match pr.result with
    | Except.ok _ => (EppStageOutcome.declined pr.headers, pr.grpcCalled)
    | Except.error _ =>
      if conf.epp_failure_mode_allow then
        (EppStageOutcome.declined
          (set_default_upstream conf pr.headers (eppHeaderName conf)), pr.grpcCalled)
      else (EppStageOutcome.errorStatus pr.headers, pr.grpcCalled)

/-! ## Theorems -/

theorem extract_go_eq_findSome (target : String) :
    ∀ l : List HeaderValueOption,
      extract_header_from_mutation.go target l = l.findSome? (specEntryValue target)
  | [] => rfl
  | hvo :: rest => by
    simp only [extract_header_from_mutation.go, List.findSome?, specEntryValue]
    cases h : hvo.header with
    | none => simpa using extract_go_eq_findSome target rest
    | some hdr =>
      by_cases hk : eqIgnoreAsciiCase hdr.key target
      · by_cases hv : hdr.value ≠ ""
        · simp [hk, hv]
        · by_cases hr : hdr.raw_value ≠ []
          · simp [hk, hv, hr]
          · simpa [hk, hv, hr] using extract_go_eq_findSome target rest
      · simpa [hk] using extract_go_eq_findSome target rest

/-- C1: header extraction scans the set-list in order and returns the value
of the first entry whose key matches the target ASCII-case-insensitively and
has a non-empty textual value (returned as-is) or, failing that, a non-empty
raw byte value (returned UTF-8-lossy decoded); an entry whose key matches
but whose textual and raw values are both empty does not stop the scan, and
if no entry yields a value the result is `none`. -/
theorem extract_header_first_nonempty_match (m : HeaderMutation) (k : String) :
    extract_header_from_mutation m k = specFirstMatch m k :=
  extract_go_eq_findSome k m.set_headers

/-- C4: model extraction is a total function on arbitrary byte inputs: it
returns `some s` iff the bytes strictly decode as UTF-8 and parse as JSON
whose top-level `"model"` key (case-sensitive) holds the JSON string `s` —
including empty or whitespace-only `s`; non-UTF-8 input, malformed JSON, a
missing `"model"` key, and a `"model"` value of any non-string JSON type
all yield `none`.  The characterization is accompanied by concrete
evaluations for each listed case. -/
theorem extract_model_total_characterization :
    (∀ (body : List Nat) (s : String),
        extract_model_from_body body = some s ↔
          ∃ chars json, utf8DecodeStrict body = some chars ∧
            jsonParse (String.mk chars) = some json ∧
            jsonGet json "model" = some (Json.str s)) ∧
    extract_model_from_body
        (strBytes "\x7b\"model\": \"gpt-4\", \"prompt\": \"hi\"\x7d") = some "gpt-4" ∧
    extract_model_from_body (strBytes "\x7b\"model\": \"\"\x7d") = some "" ∧
    extract_model_from_body (strBytes "\x7b\"model\": \"   \"\x7d") = some "   " ∧
    extract_model_from_body [0xFF, 0xFE, 0xFD] = none ∧
    extract_model_from_body (strBytes "not json at all") = none ∧
    extract_model_from_body (strBytes "\x7b\"model\": \"gpt-4\", \"prompt\":\x7d") = none ∧
    extract_model_from_body (strBytes "\x7b\"prompt\": \"hi\"\x7d") = none ∧
    extract_model_from_body (strBytes "\x7b\"Model\": \"x\"\x7d") = none ∧
    extract_model_from_body (strBytes "\x7b\"model\": null\x7d") = none ∧
    extract_model_from_body (strBytes "\x7b\"model\": 123\x7d") = none ∧
    extract_model_from_body (strBytes "\x7b\"model\": true\x7d") = none ∧
    extract_model_from_body (strBytes "\x7b\"model\": [\"a\"]\x7d") = none ∧
    extract_model_from_body (strBytes "\x7b\"model\": \x7b\"name\": \"x\"\x7d\x7d") = none := by
  refine ⟨?_, rfl, rfl, rfl, rfl, rfl, rfl, rfl, rfl, rfl, rfl, rfl, rfl, rfl⟩
  intro body s
  unfold extract_model_from_body
  cases hd : utf8DecodeStrict body with
  | none => simp
  | some chars =>
    cases hp : jsonParse ⟨chars⟩ with
    | none => simp [hp]
    | some json =>
      cases hg : jsonGet json "model" with
      | none => simp [hp, hg]
      | some jv => cases jv <;> simp [hp, hg, jsonAsStr]

/-! ### Helper lemmas (shared) -/

theorem runFires_dead : ∀ (inps : List WatcherInput), runFires inps false = []
  | [] => rfl
  | inp :: rest => by simp [runFires, fireStep, runFires_dead rest]

theorem check_reschedule_iff (inp : WatcherInput) :
    check_epp_result inp = FireOutcome.reschedule ↔ resolvingInput inp = false := by
  unfold check_epp_result resolvingInput requestGone chanIsEmpty
  cases h1 : inp.requestNull <;> cases h2 : inp.connNull <;> cases h3 : inp.countZero <;>
    cases h4 : inp.timedOut <;> cases h5 : inp.chan <;> simp

theorem runFires_length_le_one :
    ∀ (inps : List WatcherInput), (runFires inps true).length ≤ 1
  | [] => by simp [runFires]
  | inp :: rest => by
    cases hc : check_epp_result inp with
    | reschedule => simpa [runFires, fireStep, hc] using runFires_length_le_one rest
    | teardown => simp [runFires, fireStep, hc, runFires_dead]
    | timeoutFail => simp [runFires, fireStep, hc, runFires_dead]
    | deliver res => simp [runFires, fireStep, hc, runFires_dead]
    | closedFail => simp [runFires, fireStep, hc, runFires_dead]

theorem runFires_resolves :
    ∀ (inps : List WatcherInput), inps.any resolvingInput = true →
      (runFires inps true).length = 1
  | inp :: rest, h => by
    by_cases hr : resolvingInput inp = true
    · have hcne : check_epp_result inp ≠ FireOutcome.reschedule := by
        rw [Ne, check_reschedule_iff, hr]; simp
      cases hc : check_epp_result inp with
      | reschedule => exact absurd hc hcne
      | teardown => simp [runFires, fireStep, hc, runFires_dead]
      | timeoutFail => simp [runFires, fireStep, hc, runFires_dead]
      | deliver res => simp [runFires, fireStep, hc, runFires_dead]
      | closedFail => simp [runFires, fireStep, hc, runFires_dead]
    · have hr2 : resolvingInput inp = false := by simpa using hr
      have hc : check_epp_result inp = FireOutcome.reschedule :=
        (check_reschedule_iff inp).mpr hr2
      have hrest : rest.any resolvingInput = true := by
        simpa [List.any_cons, hr2] using h
      simpa [runFires, fireStep, hc] using runFires_resolves rest hrest

theorem runFires_timeout_unique (inps : List WatcherInput)
    (h : FireOutcome.timeoutFail ∈ runFires inps true) :
    runFires inps true = [FireOutcome.timeoutFail] := by
  have hle := runFires_length_le_one inps
  match hl : runFires inps true with
  | [] => rw [hl] at h; simp at h
  | [a] =>
    rw [hl] at h
    simp at h
    rw [h]
  | a :: b :: t => rw [hl] at hle; simp at hle

theorem epp_read_rest_delay_independent (target : String) :
    ∀ (l l2 : List (Nat × RecvItem)), l.map Prod.snd = l2.map Prod.snd →
      epp_read_rest target l = epp_read_rest target l2
  | [], [], _ => rfl
  | [], _ :: _, h => by simp at h
  | _ :: _, [], h => by simp at h
  | (d, item) :: rest, (d2, item2) :: rest2, h => by
    simp only [List.map_cons, List.cons.injEq] at h
    obtain ⟨hi, hr⟩ := h
    subst hi
    cases item with
    | msg resp =>
      cases hp : parse_response_for_header resp target <;>
        simp [epp_read_rest, hp, epp_read_rest_delay_independent target rest rest2 hr]
    | eos => simp [epp_read_rest]
    | recvErr e => simp [epp_read_rest]

theorem epp_first_read_timeout (t d : Nat) (k : String) (item : RecvItem)
    (rest : List (Nat × RecvItem)) (h0 : t ≠ 0) (hd : t < d) :
    epp_read_responses t k ((d, item) :: rest) = EppCallResult.ok none := by
  simp [epp_read_responses, h0, hd]

theorem bbrAppendSegment_closed (conf : BbrConfig)
    (hallow : conf.bbr_failure_mode_allow = false) (seg body : List Nat) (total : Nat)
    (hle : total ≤ conf.bbr_max_body_size) :
    bbrAppendSegment conf seg body total =
      if total + seg.length > conf.bbr_max_body_size then
        LinkStep.stop (Except.error ())
      else LinkStep.next (body ++ seg) (total + seg.length) := by
  unfold bbrAppendSegment
  rcases Nat.eq_zero_or_pos seg.length with hz | hpos
  · have hseg : seg = [] := List.length_eq_zero.mp hz
    subst hseg
    simp [Nat.not_lt.mpr hle]
  · simp only [gt_iff_lt, hpos, if_pos]
    split <;> simp_all

theorem read_body_closed_error_iff (conf : BbrConfig)
    (hallow : conf.bbr_failure_mode_allow = false) :
    ∀ (chain : List ChainLink) (body : List Nat) (total : Nat),
      total ≤ conf.bbr_max_body_size →
      (read_request_body_go conf chain body total = Except.error () ↔
        total + chainBytes chain > conf.bbr_max_body_size)
  | [], body, total, hle => by
    simp [read_request_body_go, chainBytes, Nat.not_lt.mpr hle]
  | link :: rest, body, total, hle => by
    have h1 := bbrAppendSegment_closed conf hallow link.mem body total hle
    by_cases hm : total + link.mem.length > conf.bbr_max_body_size
    · rw [if_pos hm] at h1
      simp only [read_request_body_go, h1, chainBytes, List.map_cons, List.sum_cons]
      constructor
      · intro _; omega
      · intro _; trivial
    · rw [if_neg hm] at h1
      have hle1 : total + link.mem.length ≤ conf.bbr_max_body_size := Nat.not_lt.mp hm
      have h2 := bbrAppendSegment_closed conf hallow link.file (body ++ link.mem)
        (total + link.mem.length) hle1
      by_cases hf : total + link.mem.length + link.file.length > conf.bbr_max_body_size
      · rw [if_pos hf] at h2
        simp only [read_request_body_go, h1, h2, chainBytes, List.map_cons, List.sum_cons]
        constructor
        · intro _; omega
        · intro _; trivial
      · rw [if_neg hf] at h2
        have hle2 : total + link.mem.length + link.file.length ≤ conf.bbr_max_body_size :=
          Nat.not_lt.mp hf
        simp only [read_request_body_go, h1, h2]
        rw [read_body_closed_error_iff conf hallow rest _ _ hle2]
        simp only [chainBytes, List.map_cons, List.sum_cons]
        omega

theorem bbrOpenStep (conf : BbrConfig)
    (hallow : conf.bbr_failure_mode_allow = true)
    (seg body : List Nat) (total : Nat) (hbt : body.length = total)
    (hle : total ≤ conf.bbr_max_body_size) :
    (∃ b, bbrAppendSegment conf seg body total =
        LinkStep.stop (Except.ok b) ∧ b.length ≤ conf.bbr_max_body_size) ∨
    (total + seg.length ≤ conf.bbr_max_body_size ∧
      bbrAppendSegment conf seg body total =
        LinkStep.next (body ++ seg) (total + seg.length)) := by
  unfold bbrAppendSegment
  rcases Nat.eq_zero_or_pos seg.length with hz | hpos
  · have hseg : seg = [] := List.length_eq_zero.mp hz
    subst hseg
    right
    refine ⟨by simpa using hle, ?_⟩
    simp [Nat.not_lt.mpr hle]
  · by_cases hover : total + seg.length > conf.bbr_max_body_size
    · left
      refine ⟨body ++ seg.take (conf.bbr_max_body_size - total), ?_, ?_⟩
      · simp [hpos, hover, hallow]
      · simp [List.length_take]
        omega
    · right
      refine ⟨Nat.not_lt.mp hover, ?_⟩
      simp [hpos, hover]

theorem read_body_open_ok (conf : BbrConfig)
    (hallow : conf.bbr_failure_mode_allow = true) :
    ∀ (chain : List ChainLink) (body : List Nat) (total : Nat),
      body.length = total → total ≤ conf.bbr_max_body_size →
      ∃ b, read_request_body_go conf chain body total = Except.ok b ∧
        b.length ≤ conf.bbr_max_body_size
  | [], body, total, hbt, hle => by
    refine ⟨body, by simp [read_request_body_go], ?_⟩
    omega
  | link :: rest, body, total, hbt, hle => by
    rcases bbrOpenStep conf hallow link.mem body total hbt hle with
      ⟨b1, hstop, hblen⟩ | ⟨hlt, hnext⟩
    · refine ⟨b1, ?_, hblen⟩
      simp only [read_request_body_go, hstop]
    · rcases bbrOpenStep conf hallow link.file (body ++ link.mem)
          (total + link.mem.length) (by simp [hbt]) hlt with
        ⟨b2, hstop2, hblen2⟩ | ⟨hlt2, hnext2⟩
      · refine ⟨b2, ?_, hblen2⟩
        simp only [read_request_body_go, hnext, hstop2]
      · obtain ⟨b3, hb3, hlen3⟩ := read_body_open_ok conf hallow rest
          (body ++ link.mem ++ link.file) (total + link.mem.length + link.file.length)
          (by simp [hbt, Nat.add_assoc]) hlt2
        refine ⟨b3, ?_, hlen3⟩
        simp only [read_request_body_go, hnext, hnext2]
        exact hb3

/-! ### Claim theorems -/

/-- C5: when the stage's target header is already present on the request,
the BBR stage declines without reading the body, the BBR body handler
resumes without touching the headers, and the EPP stage returns `Ok`
without invoking the gRPC client; in each case the headers are unchanged. -/
theorem stages_skip_when_header_present :
    (∀ (conf : BbrConfig) (headers : Headers),
        (get_header_in headers (bbrHeaderName conf)).isSome →
        bbr_process_request conf headers = BbrAction.declined) ∧
    (∀ (conf : BbrConfig) (headers : Headers) (chain : List ChainLink),
        (get_header_in headers (bbrHeaderName conf)).isSome →
        bbr_body_read_handler conf headers chain = BbrOutcome.proceed headers) ∧
    (∀ (conf : EppConfig) (headers : Headers) (grpc : EppCallResult),
        (get_header_in headers (eppHeaderName conf)).isSome →
        pick_upstream_blocking conf headers grpc = ⟨Except.ok (), headers, false⟩) := by
  refine ⟨?_, ?_, ?_⟩
  · intro conf headers h
    simp [bbr_process_request, h]
  · intro conf headers chain h
    simp [bbr_body_read_handler, h]
  · intro conf headers grpc h
    unfold pick_upstream_blocking
    cases he : conf.epp_endpoint with
    | none => rfl
    | some e =>
      by_cases h0 : e = ""
      · simp [h0]
      · simp [h0, h]

/-- C5 witness: concrete requests with the target headers present. -/
theorem stages_skip_when_header_present_witness :
    bbr_process_request ⟨true, "", "unknown", 1024, false⟩
        [("X-Gateway-Model-Name", "gpt-4")] = BbrAction.declined ∧
    bbr_body_read_handler ⟨true, "", "unknown", 1024, false⟩
        [("X-Gateway-Model-Name", "gpt-4")] [⟨[49], []⟩] =
      BbrOutcome.proceed [("X-Gateway-Model-Name", "gpt-4")] ∧
    pick_upstream_blocking ⟨true, some "epp.local:9002", "", false, none⟩
        [("X-Inference-Upstream", "10.0.0.5:8000")] (EppCallResult.err "down") =
      ⟨Except.ok (), [("X-Inference-Upstream", "10.0.0.5:8000")], false⟩ :=
  ⟨stages_skip_when_header_present.1 _ _ (by decide),
   stages_skip_when_header_present.2.1 _ _ _ (by decide),
   stages_skip_when_header_present.2.2 _ _ _ (by decide)⟩

/-- C6: on every EPP stage failure (gRPC error, timeout, or
success-with-no-value): with fail-open set and a default configured the
target header is set to that default and processing continues; with
fail-open unset the request is rejected with the stage's status (504 for
the watcher timeout, 502 for transport/channel failures, `NGX_ERROR` for
the blocking stage) and no default is applied. -/
theorem epp_failure_mode_policy :
    (∀ (ctx : AsyncEppContext) (headers : Headers) (status : Nat) (d : String),
        ctx.failure_mode_allow = true → ctx.default_upstream = some d →
        handle_epp_failure ctx headers status =
          EppResolution.resume (set_upstream_header headers ctx.upstream_header d)) ∧
    (∀ (ctx : AsyncEppContext) (headers : Headers) (status : Nat),
        ctx.failure_mode_allow = false →
        handle_epp_failure ctx headers status = EppResolution.finalize status headers) ∧
    process_epp_async (EppCallResult.ok none) = Except.error "EPP returned no upstream" ∧
    (∀ (ctx : AsyncEppContext) (headers : Headers) (inp : WatcherInput),
        requestGone inp = false → inp.timedOut = true →
        resolve_fire ctx headers inp = some (handle_epp_failure ctx headers 504)) ∧
    (∀ (ctx : AsyncEppContext) (headers : Headers) (inp : WatcherInput),
        requestGone inp = false → inp.timedOut = false → inp.chan = ChanState.closed →
        resolve_fire ctx headers inp = some (handle_epp_failure ctx headers 502)) ∧
    (∀ (ctx : AsyncEppContext) (headers : Headers) (inp : WatcherInput) (e : String),
        requestGone inp = false → inp.timedOut = false →
        inp.chan = ChanState.ready (Except.error e) →
        resolve_fire ctx headers inp = some (handle_epp_failure ctx headers 502)) ∧
    (∀ (conf : EppConfig) (headers : Headers) (ep d : String) (e : String)
        (grpc : EppCallResult),
        conf.epp_enable = true → conf.epp_endpoint = some ep → ep ≠ "" →
        get_header_in headers (eppHeaderName conf) = none →
        (grpc = EppCallResult.err e ∨ grpc = EppCallResult.ok none) →
        (conf.epp_failure_mode_allow = true → conf.default_upstream = some d →
          epp_process_request conf headers grpc =
            (EppStageOutcome.declined (headers ++ [(eppHeaderName conf, d)]), true)) ∧
        (conf.epp_failure_mode_allow = false →
          epp_process_request conf headers grpc =
            (EppStageOutcome.errorStatus headers, true))) := by
  refine ⟨?_, ?_, rfl, ?_, ?_, ?_, ?_⟩
  · intro ctx headers status d hfa hd
    simp [handle_epp_failure, hfa, hd]
  · intro ctx headers status hfa
    simp [handle_epp_failure, hfa]
  · intro ctx headers inp hg ht
    simp [requestGone] at hg
    obtain ⟨⟨h1, h2⟩, h3⟩ := hg
    simp [resolve_fire, check_epp_result, h1, h2, h3, ht]
  · intro ctx headers inp hg ht hc
    simp [requestGone] at hg
    obtain ⟨⟨h1, h2⟩, h3⟩ := hg
    simp [resolve_fire, check_epp_result, h1, h2, h3, ht, hc]
  · intro ctx headers inp e hg ht hc
    simp [requestGone] at hg
    obtain ⟨⟨h1, h2⟩, h3⟩ := hg
    simp [resolve_fire, check_epp_result, h1, h2, h3, ht, hc, process_epp_result]
  · intro conf headers ep d e grpc hen hep hne habs hfail
    constructor
    · intro hfa hd
      rcases hfail with h | h <;> subst h <;>
        simp [epp_process_request, pick_upstream_blocking, hen, hep, hne, habs, hfa, hd,
          set_default_upstream]
    · intro hfa
      rcases hfail with h | h <;> subst h <;>
        simp [epp_process_request, pick_upstream_blocking, hen, hep, hne, habs, hfa]

/-- C6 witness: a concrete fail-open timeout resolution that sets the
default `fallback:8000`, a concrete fail-closed 504 finalization, and a
concrete fail-open blocking-stage failure that sets the default. -/
theorem epp_failure_mode_policy_witness :
    handle_epp_failure ⟨"X-Inference-Upstream", 200, true, some "fallback:8000"⟩ [] 504 =
      EppResolution.resume [("X-Inference-Upstream", "fallback:8000")] ∧
    handle_epp_failure ⟨"X-Inference-Upstream", 200, false, some "fallback:8000"⟩ [] 504 =
      EppResolution.finalize 504 [] ∧
    epp_process_request ⟨true, some "epp.local:9002", "", true, some "fallback:8000"⟩
        [] (EppCallResult.err "connect error") =
      (EppStageOutcome.declined [("X-Inference-Upstream", "fallback:8000")], true) :=
  ⟨epp_failure_mode_policy.1 _ _ _ _ rfl rfl,
   epp_failure_mode_policy.2.1 _ _ _ rfl,
   (epp_failure_mode_policy.2.2.2.2.2.2 ⟨true, some "epp.local:9002", "", true,
      some "fallback:8000"⟩ [] "epp.local:9002" "fallback:8000" "connect error"
      (EppCallResult.err "connect error") rfl rfl (by decide) rfl
      (Or.inl rfl)).1 rfl rfl⟩

/-- C7: each firing of the result timer checks, in order, request liveness
(tear down), then the elapsed timeout (504 failure), then the channel
(deliver a ready result, reschedule when empty, 502 on closed); over any
sequence of fires at most one outcome resolves the call, exactly one does
as soon as a resolving condition occurs, and once the timeout path has
resolved the call no late worker result is ever delivered to the request. -/
theorem epp_call_single_resolution :
    (∀ inp : WatcherInput, requestGone inp = true →
        check_epp_result inp = FireOutcome.teardown) ∧
    (∀ inp : WatcherInput, requestGone inp = false → inp.timedOut = true →
        check_epp_result inp = FireOutcome.timeoutFail) ∧
    (∀ (inp : WatcherInput) (res : Except String String),
        requestGone inp = false → inp.timedOut = false →
        inp.chan = ChanState.ready res →
        check_epp_result inp = FireOutcome.deliver res) ∧
    (∀ inp : WatcherInput, requestGone inp = false → inp.timedOut = false →
        inp.chan = ChanState.closed → check_epp_result inp = FireOutcome.closedFail) ∧
    (∀ inps : List WatcherInput, (runFires inps true).length ≤ 1) ∧
    (∀ inps : List WatcherInput, inps.any resolvingInput = true →
        (runFires inps true).length = 1) ∧
    (∀ (inps : List WatcherInput) (res : Except String String),
        FireOutcome.timeoutFail ∈ runFires inps true →
        FireOutcome.deliver res ∉ runFires inps true) := by
  refine ⟨?_, ?_, ?_, ?_, runFires_length_le_one, runFires_resolves, ?_⟩
  · intro inp hg
    obtain ⟨rn, cn, cz, t, ch⟩ := inp
    simp [requestGone] at hg
    rcases hg with (h | h) | h
    · simp [check_epp_result, h]
    · cases rn <;> simp [check_epp_result, h]
    · cases rn <;> cases cn <;> simp [check_epp_result, h]
  · intro inp hg ht
    simp [requestGone] at hg
    obtain ⟨⟨h1, h2⟩, h3⟩ := hg
    simp [check_epp_result, h1, h2, h3, ht]
  · intro inp res hg ht hc
    simp [requestGone] at hg
    obtain ⟨⟨h1, h2⟩, h3⟩ := hg
    simp [check_epp_result, h1, h2, h3, ht, hc]
  · intro inp hg ht hc
    simp [requestGone] at hg
    obtain ⟨⟨h1, h2⟩, h3⟩ := hg
    simp [check_epp_result, h1, h2, h3, ht, hc]
  · intro inps res hmem
    rw [runFires_timeout_unique inps hmem]
    simp

/-- C7 witness: a concrete trace — pending fire, then a timeout fire, then
a fire with a (late) ready result — resolves exactly once, and the late
result is never delivered. -/
theorem epp_call_single_resolution_witness :
    (requestGone ⟨true, false, false, false, ChanState.empty⟩ = true ∧
      check_epp_result ⟨true, false, false, false, ChanState.empty⟩ =
        FireOutcome.teardown) ∧
    ((runFires [⟨false, false, false, false, ChanState.empty⟩,
        ⟨false, false, false, true, ChanState.empty⟩,
        ⟨false, false, false, true,
          ChanState.ready (Except.ok "10.0.0.5:8000")⟩] true).length = 1 ∧
      FireOutcome.deliver (Except.ok "10.0.0.5:8000") ∉
        runFires [⟨false, false, false, false, ChanState.empty⟩,
          ⟨false, false, false, true, ChanState.empty⟩,
          ⟨false, false, false, true,
            ChanState.ready (Except.ok "10.0.0.5:8000")⟩] true) := by
  constructor
  · exact ⟨rfl, epp_call_single_resolution.1 _ rfl⟩
  · constructor
    · exact epp_call_single_resolution.2.2.2.2.2.1 _ rfl
    · exact epp_call_single_resolution.2.2.2.2.2.2 _ _
        (by simp [runFires, fireStep, check_epp_result])

/-- C2 counterexample: with a 100 ms budget, an elapsed timeout on the
first stream read is returned as `Ok(None)` (`src/grpc.rs:567`) — the very
same outcome as the stream closing with no matching header — even though
the pending message actually carried the target header.  The timeout is
therefore reported as `NoMatch`, contradicting the claim that it never is. -/
theorem epp_timeout_reported_as_no_match_cex :
    epp_read_responses 100 "x-inference-upstream"
        [(250, RecvItem.msg upstreamResponse)] = EppCallResult.ok none ∧
    epp_read_responses 100 "x-inference-upstream" [(10, RecvItem.eos)] =
      EppCallResult.ok none ∧
    parse_response_for_header upstreamResponse "x-inference-upstream" =
      some "10.0.0.5:8000" := ⟨rfl, rfl, rfl⟩

/-- C2 (amended): in the EPP client read phase an elapsed timeout is
returned as `Ok(None)`, the same value as a stream that closes with no
match, so at the client level the timeout is conflated with `NoMatch`; the
distinct timeout outcome exists only at the async watcher, whose elapsed
budget resolves the call through the 504 failure path, distinct from the
502 used for channel failures, and fail-closed finalization preserves the
distinct status. -/
theorem epp_timeout_client_conflation_amended :
    (∀ (t d : Nat) (k : String) (item : RecvItem) (rest : List (Nat × RecvItem)),
        t ≠ 0 → t < d →
        epp_read_responses t k ((d, item) :: rest) = EppCallResult.ok none) ∧
    (∀ (ctx : AsyncEppContext) (headers : Headers) (inp : WatcherInput),
        requestGone inp = false → inp.timedOut = true →
        resolve_fire ctx headers inp = some (handle_epp_failure ctx headers 504)) ∧
    (∀ (ctx : AsyncEppContext) (headers : Headers),
        ctx.failure_mode_allow = false →
        handle_epp_failure ctx headers 504 = EppResolution.finalize 504 headers ∧
        handle_epp_failure ctx headers 502 = EppResolution.finalize 502 headers ∧
        EppResolution.finalize 504 headers ≠ EppResolution.finalize 502 headers) := by
  refine ⟨epp_first_read_timeout, ?_, ?_⟩
  · intro ctx headers inp hg ht
    simp [requestGone] at hg
    obtain ⟨⟨h1, h2⟩, h3⟩ := hg
    simp [resolve_fire, check_epp_result, h1, h2, h3, ht]
  · intro ctx headers hfa
    refine ⟨by simp [handle_epp_failure, hfa], by simp [handle_epp_failure, hfa], by simp⟩

/-- C2 witness: the amended statement at concrete inputs. -/
theorem epp_timeout_client_conflation_amended_witness :
    epp_read_responses 100 "x-inference-upstream" [(250, RecvItem.eos)] =
      EppCallResult.ok none ∧
    resolve_fire ⟨"X-Inference-Upstream", 200, false, none⟩ []
        ⟨false, false, false, true, ChanState.empty⟩ =
      some (handle_epp_failure ⟨"X-Inference-Upstream", 200, false, none⟩ [] 504) ∧
    handle_epp_failure ⟨"X-Inference-Upstream", 200, false, none⟩ [] 504 =
      EppResolution.finalize 504 [] :=
  ⟨epp_timeout_client_conflation_amended.1 100 250 _ _ _ (by decide) (by decide),
   epp_timeout_client_conflation_amended.2.1 _ _ _ rfl rfl,
   (epp_timeout_client_conflation_amended.2.2 _ _ rfl).1⟩

/-- C8 counterexample: with a 100 ms budget, a first response that arrives
in time but carries no match is followed by a second read that takes
1 000 000 ms; the read loop (`src/grpc.rs:587-603`) still waits for it and
returns its value, so a read phase after the first response message waited
far beyond the call's time budget. -/
theorem epp_late_read_exceeds_budget_cex :
    epp_read_responses 100 "x-inference-upstream"
        [(50, RecvItem.msg emptyResponse), (1000000, RecvItem.msg upstreamResponse)] =
      EppCallResult.ok (some "10.0.0.5:8000") ∧ (100 : Nat) < 1000000 :=
  ⟨rfl, by decide⟩

/-- C8 (amended): with a non-zero timeout, only the wait for the first
response message is bounded by the budget — an elapsed first read returns
early — while every read after the first response message is not
time-bounded at all: the call's result is independent of the delays of all
subsequent reads. -/
theorem epp_timeout_bounds_first_read_only :
    (∀ (t d : Nat) (k : String) (item : RecvItem) (rest : List (Nat × RecvItem)),
        t ≠ 0 → t < d →
        epp_read_responses t k ((d, item) :: rest) = EppCallResult.ok none) ∧
    (∀ (t d : Nat) (k : String) (item : RecvItem)
        (rest rest2 : List (Nat × RecvItem)),
        ¬(t ≠ 0 ∧ t < d) → rest.map Prod.snd = rest2.map Prod.snd →
        epp_read_responses t k ((d, item) :: rest) =
          epp_read_responses t k ((d, item) :: rest2)) := by
  refine ⟨epp_first_read_timeout, ?_⟩
  intro t d k item rest rest2 hcond hmap
  simp only [epp_read_responses, if_neg hcond]
  cases item with
  | msg resp =>
    cases hp : parse_response_for_header resp k <;>
      simp [hp, epp_read_rest_delay_independent k rest rest2 hmap]
  | eos => rfl
  | recvErr e => rfl

/-- C8 witness: the amended statement at concrete inputs — a timed-out
first read, and a second read whose delay (10 vs 1 000 000 ms) does not
change the result. -/
theorem epp_timeout_bounds_first_read_only_witness :
    epp_read_responses 200 "x-inference-upstream" [(900, RecvItem.eos)] =
      EppCallResult.ok none ∧
    epp_read_responses 200 "x-inference-upstream"
        [(50, RecvItem.msg emptyResponse), (10, RecvItem.msg upstreamResponse)] =
      epp_read_responses 200 "x-inference-upstream"
        [(50, RecvItem.msg emptyResponse), (1000000, RecvItem.msg upstreamResponse)] :=
  ⟨epp_timeout_bounds_first_read_only.1 200 900 _ _ _ (by decide) (by decide),
   epp_timeout_bounds_first_read_only.2 200 50 _ _ _ _ (by decide) rfl⟩

/-- C10: an EPP client call whose `timeout_ms` is 0 applies no time bound
at all: its reading phase equals the unbounded read loop (which has no
timeout branch), and its result is independent of every read delay, so the
early timeout return is unreachable and each read may wait indefinitely. -/
theorem epp_zero_timeout_no_bound :
    (∀ (k : String) (stream : List (Nat × RecvItem)),
        epp_read_responses 0 k stream = epp_read_rest k stream) ∧
    (∀ (k : String) (l l2 : List (Nat × RecvItem)),
        l.map Prod.snd = l2.map Prod.snd →
        epp_read_responses 0 k l = epp_read_responses 0 k l2) := by
  have h1 : ∀ (k : String) (stream : List (Nat × RecvItem)),
      epp_read_responses 0 k stream = epp_read_rest k stream := by
    intro k stream
    cases stream with
    | nil => rfl
    | cons p rest =>
      obtain ⟨d, item⟩ := p
      show (if (0 : Nat) ≠ 0 ∧ 0 < d then EppCallResult.ok none else _) = _
      rw [if_neg (by simp)]
      cases item <;> rfl
  refine ⟨h1, ?_⟩
  intro k l l2 h
  rw [h1, h1]
  exact epp_read_rest_delay_independent k l l2 h

/-- C10 witness: with timeout 0, a read taking 1 000 000 ms produces the
same result as one taking 5 ms. -/
theorem epp_zero_timeout_no_bound_witness :
    epp_read_responses 0 "x-inference-upstream"
        [(5, RecvItem.msg upstreamResponse)] =
      epp_read_responses 0 "x-inference-upstream"
        [(1000000, RecvItem.msg upstreamResponse)] :=
  epp_zero_timeout_no_bound.2 "x-inference-upstream" _ _ rfl

/-- C3 counterexample: against a 4-byte ceiling with the fail-open flag
set, an 8-byte body is silently truncated to 4 bytes
(`src/modules/bbr.rs:305-313`) and processing continues — model extraction
runs on the truncated body and the default model header is set — instead of
the claimed unconditional 413 rejection. -/
theorem bbr_oversize_fail_open_truncates_cex :
    read_request_body ⟨true, "", "unknown", 4, true⟩ [⟨strBytes "12345678", []⟩] =
      Except.ok (strBytes "1234") ∧
    bbr_body_read_handler ⟨true, "", "unknown", 4, true⟩ []
        [⟨strBytes "12345678", []⟩] =
      BbrOutcome.proceed [("X-Gateway-Model-Name", "unknown")] ∧
    chainBytes [⟨strBytes "12345678", []⟩] > 4 := ⟨rfl, rfl, by decide⟩

/-- C3 (amended): the unconditional rejection holds only in fail-closed
mode: there an over-ceiling body is exactly what makes collection fail, and
the request is rejected with 413 before model extraction runs; with the
fail-open flag set, collection never fails — the body is truncated to at
most the ceiling and processing continues (extraction runs on the truncated
body). -/
theorem bbr_body_limit_policy_amended :
    (∀ (conf : BbrConfig) (chain : List ChainLink),
        conf.bbr_failure_mode_allow = false →
        (read_request_body conf chain = Except.error () ↔
          chainBytes chain > conf.bbr_max_body_size)) ∧
    (∀ (conf : BbrConfig) (headers : Headers) (chain : List ChainLink),
        conf.bbr_failure_mode_allow = false →
        get_header_in headers (bbrHeaderName conf) = none →
        chainBytes chain > conf.bbr_max_body_size →
        bbr_body_read_handler conf headers chain = BbrOutcome.reject 413) ∧
    (∀ (conf : BbrConfig) (chain : List ChainLink),
        conf.bbr_failure_mode_allow = true →
        ∃ body, read_request_body conf chain = Except.ok body ∧
          body.length ≤ conf.bbr_max_body_size) := by
  refine ⟨?_, ?_, ?_⟩
  · intro conf chain hallow
    simpa [read_request_body] using
      read_body_closed_error_iff conf hallow chain [] 0 (Nat.zero_le _)
  · intro conf headers chain hallow habs hover
    have herr : read_request_body conf chain = Except.error () := by
      rw [read_request_body]
      exact (read_body_closed_error_iff conf hallow chain [] 0 (Nat.zero_le _)).mpr
        (by simpa using hover)
    simp [bbr_body_read_handler, habs, herr, hallow]
  · intro conf chain hallow
    simpa [read_request_body] using
      read_body_open_ok conf hallow chain [] 0 rfl (Nat.zero_le _)

/-- C3 witness: the amended statement at concrete inputs — the same 8-byte
body against a 4-byte ceiling is rejected with 413 in fail-closed mode, and
collected (truncated) in fail-open mode. -/
theorem bbr_body_limit_policy_amended_witness :
    bbr_body_read_handler ⟨true, "", "unknown", 4, false⟩ []
        [⟨strBytes "12345678", []⟩] = BbrOutcome.reject 413 ∧
    ∃ body, read_request_body ⟨true, "", "unknown", 4, true⟩
        [⟨strBytes "12345678", []⟩] = Except.ok body ∧ body.length ≤ 4 :=
  ⟨bbr_body_limit_policy_amended.2.1 ⟨true, "", "unknown", 4, false⟩ []
      [⟨strBytes "12345678", []⟩] rfl rfl (by decide),
   bbr_body_limit_policy_amended.2.2 ⟨true, "", "unknown", 4, true⟩
      [⟨strBytes "12345678", []⟩] rfl⟩

/-- C9 counterexample: a successfully collected **empty** body makes the
handler return without setting any header (`src/modules/bbr.rs:203-206`) —
with default `"unknown"` configured the headers stay empty, contradicting
the claim that the target header is always set on successful collection. -/
theorem bbr_empty_body_leaves_headers_cex :
    read_request_body ⟨true, "", "unknown", 1024, false⟩ [] = Except.ok [] ∧
    bbr_body_read_handler ⟨true, "", "unknown", 1024, false⟩ [] [] =
      BbrOutcome.proceed [] ∧
    get_header_in [] "X-Gateway-Model-Name" = none := ⟨rfl, rfl, rfl⟩

/-- C9 (amended): on every request whose body is collected successfully
and is **non-empty**, the BBR stage sets the target header to the extracted
model string, or to the configured default when extraction yields nothing;
an empty collected body instead leaves the headers unchanged. -/
theorem bbr_success_nonempty_sets_header :
    (∀ (conf : BbrConfig) (headers : Headers) (chain : List ChainLink)
        (body : List Nat),
        get_header_in headers (bbrHeaderName conf) = none →
        read_request_body conf chain = Except.ok body → body ≠ [] →
        bbr_body_read_handler conf headers chain =
          BbrOutcome.proceed (headers ++
            [(bbrHeaderName conf,
              (extract_model_from_body body).getD conf.bbr_default_model)])) ∧
    (∀ (conf : BbrConfig) (headers : Headers) (chain : List ChainLink),
        get_header_in headers (bbrHeaderName conf) = none →
        read_request_body conf chain = Except.ok [] →
        bbr_body_read_handler conf headers chain = BbrOutcome.proceed headers) := by
  constructor
  · intro conf headers chain body habs hok hne
    cases hx : extract_model_from_body body <;>
      simp [bbr_body_read_handler, habs, hok, hx, List.isEmpty_iff, hne]
  · intro conf headers chain habs hok
    simp [bbr_body_read_handler, habs, hok]

/-- C9 witness (spec scenario 2): body `{"prompt":"hi"}` with default
`"unknown"` sets the header to `unknown`. -/
theorem bbr_success_nonempty_sets_header_witness :
    bbr_body_read_handler ⟨true, "", "unknown", 1024, false⟩ []
        [⟨strBytes "\x7b\"prompt\":\"hi\"\x7d", []⟩] =
      BbrOutcome.proceed [("X-Gateway-Model-Name", "unknown")] := by
  have h := bbr_success_nonempty_sets_header.1 ⟨true, "", "unknown", 1024, false⟩ []
    [⟨strBytes "\x7b\"prompt\":\"hi\"\x7d", []⟩]
    (strBytes "\x7b\"prompt\":\"hi\"\x7d") rfl rfl (by decide)
  rw [h]
  rfl


end NgxInference
